import Mathlib

/-
Verification of the forthic-zig gRPC C wrapper (src/grpc/grpc_c_wrapper.cpp,
src/grpc/grpc_c_wrapper.h) against its specification.

Shallow embedding conventions:
  - C pointers that can be null are modelled as Option; a null pointer is none.
  - The protobuf message forthic.StackValue (generated code, not under src/)
    is modelled from the spec as the tagged union Proto below; its generated
    accessors return the zero default when the queried field is not the one
    set, which is standard protobuf oneof semantics and is what the spec
    states in section 3 and 4.1.
  - IEEE-754 doubles are never computed with by this code, only stored and
    copied, so the double payload is abstracted as its bit pattern (a Nat);
    the value 0.0 corresponds to bit pattern 0.
  - Heap-allocated StackValue objects are modelled by an explicit heap: a
    list of slots, each holding the proto content of a live object or none
    after it was destroyed.  A handle (StackValue pointer) is a slot index.
  - int64 payloads are stored and returned unchanged, never computed with,
    so they are modelled as Int.
-/

namespace ForthicGrpc

/-- Abstraction of an IEEE-754 double: its 64-bit pattern. 0.0 is pattern 0. -/
abbrev FloatBits := Nat

/-- Modelled from the spec: the wire value message forthic.StackValue
(generated protobuf code, not under src/).  Section 6 of the spec gives the
schema: one of null, int64, string, bool, double, array, record, instant,
plain_date, zoned_datetime.  A freshly default-constructed message has no
field set (the unset case); the record and temporal payloads are never
inspected by the wrapper, so the record carries its key-to-value list and
the temporal variants an opaque text payload. -/
inductive Proto where
  | unset
  | nullValue
  | intValue (v : Int)
  | stringValue (s : String)
  | boolValue (b : Bool)
  | floatValue (bits : FloatBits)
  | arrayValue (items : List Proto)
  | recordValue (fields : List (String × Proto))
  | instantValue (payload : String)
  | plainDateValue (payload : String)
  | zonedDatetimeValue (payload : String)

/-- Modelled from the spec: the generated accessor int_value() returns the
stored int64 when that field is set and the protobuf zero default otherwise. -/
def Proto.int_value : Proto → Int
  | .intValue v => v
  | _ => 0

/-- Modelled from the spec: string_value() returns the stored string or the
empty-string default. -/
def Proto.string_value : Proto → String
  | .stringValue s => s
  | _ => ""

/-- Modelled from the spec: bool_value() returns the stored bool or false. -/
def Proto.bool_value : Proto → Bool
  | .boolValue b => b
  | _ => false

/-- Modelled from the spec: float_value() returns the stored double or 0.0
(bit pattern 0). -/
def Proto.float_value : Proto → FloatBits
  | .floatValue bits => bits
  | _ => 0

/-- Modelled from the spec: has_array_value() of the generated message. -/
def Proto.has_array_value : Proto → Bool
  | .arrayValue _ => true
  | _ => false

/-- StackValueType enum of grpc_c_wrapper.h lines 54-65. -/
inductive StackValueType where
  | STACK_VALUE_NULL
  | STACK_VALUE_INT
  | STACK_VALUE_STRING
  | STACK_VALUE_BOOL
  | STACK_VALUE_FLOAT
  | STACK_VALUE_ARRAY
  | STACK_VALUE_RECORD
  | STACK_VALUE_INSTANT
  | STACK_VALUE_PLAIN_DATE
  | STACK_VALUE_ZONED_DATETIME
deriving DecidableEq

/-- GrpcErrorCode enum of grpc_c_wrapper.h lines 32-48. -/
inductive GrpcErrorCode where
  | GRPC_OK
  | GRPC_ERROR_INVALID_ARGUMENT
  | GRPC_ERROR_NOT_FOUND
  | GRPC_ERROR_ALREADY_EXISTS
  | GRPC_ERROR_PERMISSION_DENIED
  | GRPC_ERROR_RESOURCE_EXHAUSTED
  | GRPC_ERROR_FAILED_PRECONDITION
  | GRPC_ERROR_ABORTED
  | GRPC_ERROR_OUT_OF_RANGE
  | GRPC_ERROR_UNIMPLEMENTED
  | GRPC_ERROR_INTERNAL
  | GRPC_ERROR_UNAVAILABLE
  | GRPC_ERROR_DATA_LOSS
  | GRPC_ERROR_UNAUTHENTICATED
  | GRPC_ERROR_UNKNOWN
deriving DecidableEq

open GrpcErrorCode StackValueType

/-- Transport status codes of the underlying gRPC library (grpc::StatusCode),
identified by their standard numeric values: OK=0, CANCELLED=1, UNKNOWN=2,
INVALID_ARGUMENT=3, DEADLINE_EXCEEDED=4, NOT_FOUND=5, ALREADY_EXISTS=6,
PERMISSION_DENIED=7, RESOURCE_EXHAUSTED=8, FAILED_PRECONDITION=9, ABORTED=10,
OUT_OF_RANGE=11, UNIMPLEMENTED=12, INTERNAL=13, UNAVAILABLE=14, DATA_LOSS=15,
UNAUTHENTICATED=16.  A status is defined when its code is one of these. -/
def isDefinedStatus (c : Int) : Bool :=
  0 ≤ c && c ≤ 16

/-- The status codes the switch of status_to_error_code enumerates
(grpc_c_wrapper.cpp lines 63-89), by numeric value. -/
def handled_status_codes : List Int :=
  [3, 5, 6, 7, 8, 9, 10, 11, 12, 13, 14, 15, 16]

/-- status_to_error_code, grpc_c_wrapper.cpp lines 60-93.  status.ok() is
status code 0; the switch maps the thirteen listed codes and defaults to
GRPC_ERROR_UNKNOWN. -/
def status_to_error_code (c : Int) : GrpcErrorCode :=
  if c = 0 then GRPC_OK
  else
    match c with
    | 3 => GRPC_ERROR_INVALID_ARGUMENT
    | 5 => GRPC_ERROR_NOT_FOUND
    | 6 => GRPC_ERROR_ALREADY_EXISTS
    | 7 => GRPC_ERROR_PERMISSION_DENIED
    | 8 => GRPC_ERROR_RESOURCE_EXHAUSTED
    | 9 => GRPC_ERROR_FAILED_PRECONDITION
    | 10 => GRPC_ERROR_ABORTED
    | 11 => GRPC_ERROR_OUT_OF_RANGE
    | 12 => GRPC_ERROR_UNIMPLEMENTED
    | 13 => GRPC_ERROR_INTERNAL
    | 14 => GRPC_ERROR_UNAVAILABLE
    | 15 => GRPC_ERROR_DATA_LOSS
    | 16 => GRPC_ERROR_UNAUTHENTICATED
    | _ => GRPC_ERROR_UNKNOWN

/-- stack_value_get_type, grpc_c_wrapper.cpp lines 140-157.  A null handle
reports STACK_VALUE_NULL; otherwise the has_ checks run in source order and
fall through to STACK_VALUE_NULL for a message with no field set. -/
def stack_value_get_type : Option Proto → StackValueType
  | none => STACK_VALUE_NULL
  | some .nullValue => STACK_VALUE_NULL
  | some (.intValue _) => STACK_VALUE_INT
  | some (.stringValue _) => STACK_VALUE_STRING
  | some (.boolValue _) => STACK_VALUE_BOOL
  | some (.floatValue _) => STACK_VALUE_FLOAT
  | some (.arrayValue _) => STACK_VALUE_ARRAY
  | some (.recordValue _) => STACK_VALUE_RECORD
  | some (.instantValue _) => STACK_VALUE_INSTANT
  | some (.plainDateValue _) => STACK_VALUE_PLAIN_DATE
  | some (.zonedDatetimeValue _) => STACK_VALUE_ZONED_DATETIME
  | some .unset => STACK_VALUE_NULL

/-- stack_value_get_int, grpc_c_wrapper.cpp lines 159-161. -/
def stack_value_get_int (value : Option Proto) : Int :=
  match value with
  | some p => p.int_value
  | none => 0

/-- stack_value_get_string, grpc_c_wrapper.cpp lines 163-165. -/
def stack_value_get_string (value : Option Proto) : String :=
  match value with
  | some p => p.string_value
  | none => ""

/-- stack_value_get_bool, grpc_c_wrapper.cpp lines 167-169. -/
def stack_value_get_bool (value : Option Proto) : Bool :=
  match value with
  | some p => p.bool_value
  | none => false

/-- stack_value_get_float, grpc_c_wrapper.cpp lines 171-173. -/
def stack_value_get_float (value : Option Proto) : FloatBits :=
  match value with
  | some p => p.float_value
  | none => 0

/-- ErrorInfo struct, grpc_c_wrapper.cpp lines 50-54. -/
structure ErrorInfo where
  message : String
  runtime : String
  error_type : String

/-- error_info_get_message, grpc_c_wrapper.cpp lines 295-297. -/
def error_info_get_message (error : Option ErrorInfo) : String :=
  match error with
  | some e => e.message
  | none => ""

/-- error_info_get_runtime, grpc_c_wrapper.cpp lines 299-301. -/
def error_info_get_runtime (error : Option ErrorInfo) : String :=
  match error with
  | some e => e.runtime
  | none => ""

/-- error_info_get_error_type, grpc_c_wrapper.cpp lines 303-305. -/
def error_info_get_error_type (error : Option ErrorInfo) : String :=
  match error with
  | some e => e.error_type
  | none => ""

/-- Heap of live StackValue objects: slot i holds the proto content of the
object a handle i points to, or none once destroyed. -/
structure Heap where
  slots : List (Option Proto)

/-- Dereference a handle: the proto content of a live slot. -/
def Heap.read (h : Heap) (i : Nat) : Option Proto :=
  h.slots.getD i none

/-- Allocate a new StackValue holding proto p (operator new in the source);
returns the grown heap and the fresh handle. -/
def Heap.alloc (h : Heap) (p : Proto) : Heap × Nat :=
  (⟨h.slots ++ [some p]⟩, h.slots.length)

/-- Release the object a handle points to (operator delete in the source). -/
def Heap.free (h : Heap) (i : Nat) : Heap :=
  ⟨h.slots.set i none⟩

/-- Allocate one new StackValue per proto, in order: the copy-out loops of
stack_value_get_array (lines 190-194) and of the result-stack conversion. -/
def Heap.allocMany (h : Heap) (ps : List Proto) : Heap × List Nat :=
  match ps with
  | [] => (h, [])
  | p :: rest =>
    let a := h.alloc p
    let r := Heap.allocMany a.1 rest
    (r.1, a.2 :: r.2)

/-- Dereference each handle in order, as the copy loop of
stack_value_create_array does; dereferencing a dead or invalid handle is
undefined behaviour, modelled as none. -/
def Heap.readAll (h : Heap) : List Nat → Option (List Proto)
  | [] => some []
  | i :: is =>
    match h.read i with
    | none => none
    | some p => (Heap.readAll h is).map fun ps => p :: ps

/-- stack_value_create_array, grpc_c_wrapper.cpp lines 129-138: a new
StackValue whose array field holds a copy of each input handle content, in
order. -/
def stack_value_create_array (h : Heap) (items : List Nat) : Option (Heap × Nat) :=
  (h.readAll items).map fun ps => h.alloc (Proto.arrayValue ps)

/-- stack_value_destroy, grpc_c_wrapper.cpp lines 200-202. -/
def stack_value_destroy (h : Heap) (i : Nat) : Heap :=
  h.free i

/-- stack_value_get_array, grpc_c_wrapper.cpp lines 175-198, for a live
value of content p (the early return on null arguments aside): when p is
not an array it writes a null items pointer and length 0 and allocates
nothing; when p is an array it allocates one fresh StackValue per element,
copying the element content, and returns the handles with the length.
Result: (heap after, items pointer as Option, out_len). -/
def stack_value_get_array (h : Heap) (p : Proto) : Heap × Option (List Nat) × Nat :=
  match p with
  | .arrayValue items =>
    let r := h.allocMany items
    (r.1, some r.2, items.length)
  | _ => (h, none, 0)

/-- grpc_client_create, grpc_c_wrapper.cpp lines 216-227.  address is the C
string pointer (none = NULL); out_client_present is whether the out slot
pointer is non-null.  Result: the returned code and whether a client was
allocated and stored. -/
def grpc_client_create (address : Option String) (out_client_present : Bool) :
    GrpcErrorCode × Bool :=
  if address.isNone || !out_client_present then
    (GRPC_ERROR_INVALID_ARGUMENT, false)
  else
    (GRPC_OK, true)

/-- Wire message ExecuteWordResponse per section 6 of the spec: an optional
application error and a result stack; has_error() is error.isSome. -/
structure ExecuteWordResponse where
  error : Option ErrorInfo
  result_stack : List Proto

/-- Presence of the three caller-provided output slot pointers of
grpc_client_execute_word (true = non-null pointer). -/
structure OutSlotPtrs where
  out_result_stack : Bool
  out_result_len : Bool
  out_error : Bool

/-- Contents of the memory the three output slots point to: the result
stack slot (none = a null array pointer was stored), the length slot, and
the error slot (none = a null ErrorInfo pointer was stored). -/
structure SlotState where
  result_stack : Option (List Proto)
  result_len : Nat
  error : Option ErrorInfo

/-- grpc_client_execute_word, grpc_c_wrapper.cpp lines 229-285.
client_present and word_name model the nullability of the first two
arguments; status and response model what the remote call produced (status
code 0 is OK).  The function is a transformer of the output-slot state s;
none models the undefined behaviour of writing through a null output slot
pointer, which the validation at lines 238-240 does not rule out for the
error slot. -/
def grpc_client_execute_word (client_present : Bool) (word_name : Option String)
    (stack : List Proto) (ptrs : OutSlotPtrs) (status : Int)
    (response : ExecuteWordResponse) (s : SlotState) :
    Option (GrpcErrorCode × SlotState) :=
  if !client_present || word_name.isNone || !ptrs.out_result_stack
      || !ptrs.out_result_len then
    some (GRPC_ERROR_INVALID_ARGUMENT, s)
  else if status ≠ 0 then
    some (status_to_error_code status, s)
  else
    match response.error with
    | some e =>
      if ptrs.out_error then
        some (GRPC_OK, ⟨none, 0, some ⟨e.message, e.runtime, e.error_type⟩⟩)
      else
        none
    | none =>
      if ptrs.out_error then
        some (GRPC_OK, ⟨some response.result_stack, response.result_stack.length, none⟩)
      else
        none

theorem Heap.read_lt_of_some {h : Heap} {i : Nat} {p : Proto} (hr : h.read i = some p) :
    i < h.slots.length := by
  by_contra hge
  rw [Heap.read, List.getD_eq_default _ _ (Nat.le_of_not_lt hge)] at hr
  exact Option.noConfusion hr

theorem Heap.read_append_left (s t : List (Option Proto)) (i : Nat) (hi : i < s.length) :
    Heap.read ⟨s ++ t⟩ i = Heap.read ⟨s⟩ i :=
  List.getD_append s t none i hi

theorem Heap.read_last (s : List (Option Proto)) (p : Proto) :
    Heap.read ⟨s ++ [some p]⟩ s.length = some p := by
  rw [Heap.read, List.getD_append_right s [some p] none s.length (Nat.le_refl _)]
  simp

theorem Heap.read_free_ne {h : Heap} {a c : Nat} (hac : a ≠ c) :
    (h.free a).read c = h.read c := by
  simp [Heap.free, Heap.read, List.getD_eq_getElem?_getD, List.getElem?_set_ne hac]

theorem Heap.allocMany_fst (ps : List Proto) : ∀ (h : Heap),
    (h.allocMany ps).1 = ⟨h.slots ++ ps.map some⟩ := by
  induction ps with
  | nil => intro h; simp [Heap.allocMany]
  | cons p rest ih =>
    intro h
    simp [Heap.allocMany, Heap.alloc, ih]

theorem Heap.allocMany_handles (ps : List Proto) : ∀ (h : Heap),
    (h.allocMany ps).2 = List.range' h.slots.length ps.length := by
  induction ps with
  | nil => intro h; simp [Heap.allocMany]
  | cons p rest ih =>
    intro h
    simp [Heap.allocMany, Heap.alloc, ih, List.range']

theorem Heap.allocMany_read (ps : List Proto) : ∀ (h : Heap),
    ((h.allocMany ps).2).map (h.allocMany ps).1.read = ps.map some := by
  induction ps with
  | nil => intro h; simp [Heap.allocMany]
  | cons p rest ih =>
    intro h
    simp only [Heap.allocMany, Heap.alloc, List.map_cons, List.map,
      List.cons.injEq]
    constructor
    · rw [Heap.allocMany_fst]
      have hlt : h.slots.length < (h.slots ++ [some p]).length := by simp
      rw [show (⟨(⟨h.slots ++ [some p]⟩ : Heap).slots ++ rest.map some⟩ : Heap)
            = ⟨(h.slots ++ [some p]) ++ rest.map some⟩ from rfl,
          Heap.read_append_left _ _ _ hlt]
      exact Heap.read_last h.slots p
    · exact ih ⟨h.slots ++ [some p]⟩

theorem readAll_of_map (h : Heap) : ∀ (handles : List Nat) (ps : List Proto),
    handles.map h.read = ps.map some → h.readAll handles = some ps := by
  intro handles
  induction handles with
  | nil =>
    intro ps hps
    cases ps with
    | nil => rfl
    | cons q qs => simp at hps
  | cons i is ih =>
    intro ps hps
    cases ps with
    | nil => simp at hps
    | cons q qs =>
      simp only [List.map_cons, List.cons.injEq] at hps
      simp [Heap.readAll, hps.1, ih qs hps.2]

theorem create_array_of_map_read (h : Heap) (handles : List Nat) (ps : List Proto)
    (hread : handles.map h.read = ps.map some) :
    stack_value_create_array h handles
      = some (⟨h.slots ++ [some (Proto.arrayValue ps)]⟩, h.slots.length) := by
  simp [stack_value_create_array, readAll_of_map h handles ps hread, Heap.alloc]

/-- C10: every inspection operation is total on a null handle:
stack_value_get_type of a null value reports STACK_VALUE_NULL, the four
payload accessors return the zero defaults (0, empty string, false, 0.0),
and the three ErrorInfo accessors return the empty string. -/
theorem null_handle_inspection_total :
    stack_value_get_type none = STACK_VALUE_NULL ∧
    stack_value_get_int none = 0 ∧
    stack_value_get_string none = "" ∧
    stack_value_get_bool none = false ∧
    stack_value_get_float none = 0 ∧
    error_info_get_message none = "" ∧
    error_info_get_runtime none = "" ∧
    error_info_get_error_type none = "" :=
  ⟨rfl, rfl, rfl, rfl, rfl, rfl, rfl, rfl⟩

/-- C4: for every Value whose active tag does not match the accessor being
called, the accessor returns the defined zero default (0, empty string,
false, 0.0 as bit pattern 0) rather than failing. -/
theorem accessors_default_on_mismatch (p : Proto) :
    (stack_value_get_type (some p) ≠ STACK_VALUE_INT →
      stack_value_get_int (some p) = 0) ∧
    (stack_value_get_type (some p) ≠ STACK_VALUE_STRING →
      stack_value_get_string (some p) = "") ∧
    (stack_value_get_type (some p) ≠ STACK_VALUE_BOOL →
      stack_value_get_bool (some p) = false) ∧
    (stack_value_get_type (some p) ≠ STACK_VALUE_FLOAT →
      stack_value_get_float (some p) = 0) := by
  cases p <;>
    simp [stack_value_get_type, stack_value_get_int, stack_value_get_string,
      stack_value_get_bool, stack_value_get_float, Proto.int_value,
      Proto.string_value, Proto.bool_value, Proto.float_value]

/-- Witness for C4 at the inputs of the spec: get_int on a string value and
get_bool on a null value. -/
theorem accessors_default_on_mismatch_witness :
    stack_value_get_int (some (Proto.stringValue "x")) = 0 ∧
    stack_value_get_bool (some Proto.nullValue) = false :=
  ⟨(accessors_default_on_mismatch (Proto.stringValue "x")).1 (by decide),
   (accessors_default_on_mismatch Proto.nullValue).2.2.1 (by decide)⟩

/-- C9: stack_value_create_array deep-copies each referenced Value content
into the new array: the new array holds the input payloads at creation
time, the array handle differs from every input handle, and destroying an
input handle afterwards leaves the array content unchanged. -/
theorem create_array_deep_copy (h : Heap) (handles : List Nat) (ps : List Proto)
    (hread : handles.map h.read = ps.map some) :
    ∃ h1 c, stack_value_create_array h handles = some (h1, c) ∧
      h1.read c = some (Proto.arrayValue ps) ∧
      ∀ a ∈ handles, a ≠ c ∧
        (stack_value_destroy h1 a).read c = some (Proto.arrayValue ps) := by
  refine ⟨⟨h.slots ++ [some (Proto.arrayValue ps)]⟩, h.slots.length,
    create_array_of_map_read h handles ps hread, Heap.read_last h.slots _, ?_⟩
  intro a ha
  have hmem : h.read a ∈ ps.map some := by
    rw [← hread]
    exact List.mem_map_of_mem _ ha
  obtain ⟨q, _, hq⟩ := List.mem_map.mp hmem
  have hlt : a < h.slots.length := Heap.read_lt_of_some hq.symm
  have hne : a ≠ h.slots.length := Nat.ne_of_lt hlt
  refine ⟨hne, ?_⟩
  rw [stack_value_destroy, Heap.read_free_ne hne]
  exact Heap.read_last h.slots _

/-- Witness for C9: packing an int and a string into an array and then
destroying the int input leaves the array copy intact. -/
theorem create_array_deep_copy_witness :
    ∃ h1 c,
      stack_value_create_array
          ⟨[some (Proto.intValue 2), some (Proto.stringValue "x")]⟩ [0, 1]
        = some (h1, c) ∧
      h1.read c = some (Proto.arrayValue [Proto.intValue 2, Proto.stringValue "x"]) ∧
      (stack_value_destroy h1 0).read c
        = some (Proto.arrayValue [Proto.intValue 2, Proto.stringValue "x"]) := by
  obtain ⟨h1, c, e1, e2, e3⟩ := create_array_deep_copy
    ⟨[some (Proto.intValue 2), some (Proto.stringValue "x")]⟩ [0, 1]
    [Proto.intValue 2, Proto.stringValue "x"] rfl
  exact ⟨h1, c, e1, e2, (e3 0 (by simp)).2⟩

/-- C8: stack_value_get_array on a non-array value yields a null items
pointer and count 0 and leaves the heap unchanged; on an array value it
yields the array length and a sequence of fresh, pairwise-distinct handles
whose contents equal the array elements in order (copy-out, not a view). -/
theorem get_array_copy_out :
    (∀ (h : Heap) (p : Proto), p.has_array_value = false →
        stack_value_get_array h p = (h, none, 0)) ∧
    (∀ (h : Heap) (items : List Proto),
        ∃ h1 hs,
          stack_value_get_array h (Proto.arrayValue items)
            = (h1, some hs, items.length) ∧
          hs.map h1.read = items.map some ∧ hs.Nodup ∧
          ∀ i ∈ hs, h.slots.length ≤ i) := by
  constructor
  · intro h p hp
    cases p <;> simp_all [stack_value_get_array, Proto.has_array_value]
  · intro h items
    refine ⟨(h.allocMany items).1, (h.allocMany items).2, ?_,
      Heap.allocMany_read items h, ?_, ?_⟩
    · simp [stack_value_get_array]
    · rw [Heap.allocMany_handles]
      exact List.nodup_range' _ _
    · intro i hi
      rw [Heap.allocMany_handles] at hi
      exact (List.mem_range'_1.mp hi).1

/-- Witness for C8: a null value gives (null, 0); a one-element array gives
one fresh handle holding a copy of the element. -/
theorem get_array_copy_out_witness :
    stack_value_get_array ⟨[]⟩ Proto.nullValue = (⟨[]⟩, none, 0) ∧
    ∃ h1 hs,
      stack_value_get_array ⟨[]⟩ (Proto.arrayValue [Proto.boolValue true])
        = (h1, some hs, 1) ∧
      hs.map h1.read = [some (Proto.boolValue true)] := by
  refine ⟨get_array_copy_out.1 ⟨[]⟩ Proto.nullValue rfl, ?_⟩
  obtain ⟨h1, hs, e1, e2, _, _⟩ := get_array_copy_out.2 ⟨[]⟩ [Proto.boolValue true]
  exact ⟨h1, hs, e1, e2⟩

/-- C5: round trip through the codec pair — allocating values, packing them
with stack_value_create_array and reading them back with
stack_value_get_array returns values whose contents equal the originals:
same tags, same payloads, same length and order, nesting preserved (proto
equality is structural and recursive). -/
theorem array_roundtrip (h : Heap) (ps : List Proto) :
    ∃ h1 hs h2 c h3 ohs,
      h.allocMany ps = (h1, hs) ∧
      stack_value_create_array h1 hs = some (h2, c) ∧
      h2.read c = some (Proto.arrayValue ps) ∧
      stack_value_get_array h2 (Proto.arrayValue ps) = (h3, some ohs, ps.length) ∧
      ohs.map h3.read = ps.map some := by
  refine ⟨(h.allocMany ps).1, (h.allocMany ps).2,
    ⟨(h.allocMany ps).1.slots ++ [some (Proto.arrayValue ps)]⟩,
    (h.allocMany ps).1.slots.length,
    ((⟨(h.allocMany ps).1.slots ++ [some (Proto.arrayValue ps)]⟩ : Heap).allocMany ps).1,
    ((⟨(h.allocMany ps).1.slots ++ [some (Proto.arrayValue ps)]⟩ : Heap).allocMany ps).2,
    rfl, ?_, ?_, ?_, ?_⟩
  · exact create_array_of_map_read _ _ _ (Heap.allocMany_read ps h)
  · exact Heap.read_last _ _
  · simp [stack_value_get_array]
  · exact Heap.allocMany_read ps _

/-- C1: when grpc_client_execute_word completes at the transport level
(status OK) with valid arguments and all output slots present, it returns
GRPC_OK; a response carrying an application error stores an ErrorInfo
populated with the response message, runtime and error_type, a zero result
length and a null result stack; a response carrying a result stack stores a
null ErrorInfo and the result values; the two channels are never both
populated. -/
theorem execute_word_dual_channel (w : String) (stack : List Proto)
    (response : ExecuteWordResponse) (s : SlotState) :
    ∃ s', grpc_client_execute_word true (some w) stack ⟨true, true, true⟩ 0 response s
        = some (GRPC_OK, s') ∧
      (∀ e, response.error = some e →
        s'.error = some ⟨e.message, e.runtime, e.error_type⟩ ∧
        s'.result_len = 0 ∧ s'.result_stack = none) ∧
      (response.error = none →
        s'.error = none ∧ s'.result_stack = some response.result_stack ∧
        s'.result_len = response.result_stack.length) ∧
      ¬(s'.error.isSome ∧ s'.result_stack.isSome) := by
  cases hre : response.error with
  | some e =>
    refine ⟨⟨none, 0, some ⟨e.message, e.runtime, e.error_type⟩⟩, ?_, ?_, ?_, ?_⟩
    · simp [grpc_client_execute_word, hre]
    · intro e2 he2
      injection he2 with he2
      subst he2
      exact ⟨rfl, rfl, rfl⟩
    · intro h0
      exact absurd h0 (by simp)
    · simp
  | none =>
    refine ⟨⟨some response.result_stack, response.result_stack.length, none⟩, ?_, ?_, ?_, ?_⟩
    · simp [grpc_client_execute_word, hre]
    · intro e2 he2
      exact absurd he2 (by simp)
    · intro _
      exact ⟨rfl, rfl, rfl⟩
    · simp

/-- Witness for C1: an application-error response yields GRPC_OK, the
populated ErrorInfo, and the empty result channel. -/
theorem execute_word_dual_channel_witness :
    ∃ s', grpc_client_execute_word true (some "ADD") [] ⟨true, true, true⟩ 0
        ⟨some ⟨"boom", "zig", "UnknownWord"⟩, []⟩ ⟨none, 0, none⟩
        = some (GRPC_OK, s') ∧
      s'.error = some ⟨"boom", "zig", "UnknownWord"⟩ ∧
      s'.result_len = 0 ∧ s'.result_stack = none := by
  obtain ⟨s', h1, h2, _, _⟩ := execute_word_dual_channel "ADD" []
    ⟨some ⟨"boom", "zig", "UnknownWord"⟩, []⟩ ⟨none, 0, none⟩
  obtain ⟨e1, e2, e3⟩ := h2 _ rfl
  exact ⟨s', h1, e1, e2, e3⟩

/-- C7: when the transport status is non-OK, grpc_client_execute_word
returns the mapped non-OK code and writes none of the output slots: the
slot state is returned unchanged. -/
theorem execute_word_transport_failure (w : String) (stack : List Proto)
    (pe : Bool) (response : ExecuteWordResponse) (s : SlotState) (status : Int)
    (hst : status ≠ 0) :
    grpc_client_execute_word true (some w) stack ⟨true, true, pe⟩ status response s
      = some (status_to_error_code status, s) ∧
    status_to_error_code status ≠ GRPC_OK := by
  constructor
  · simp [grpc_client_execute_word, hst]
  · unfold status_to_error_code
    rw [if_neg hst]
    split <;> decide

/-- Witness for C7: an UNAVAILABLE transport status leaves the output state
untouched and maps to a non-OK code. -/
theorem execute_word_transport_failure_witness :
    grpc_client_execute_word true (some "ADD") [] ⟨true, true, true⟩ 14
        ⟨none, []⟩ ⟨none, 0, none⟩
      = some (status_to_error_code 14, ⟨none, 0, none⟩) ∧
    status_to_error_code 14 ≠ GRPC_OK :=
  execute_word_transport_failure "ADD" [] true ⟨none, []⟩ ⟨none, 0, none⟩ 14 (by decide)

/-- C6 (code bug): a null client is detected and reported as
GRPC_ERROR_INVALID_ARGUMENT, but a null error slot is not: with the other
arguments valid and an application-error response, the call proceeds past
validation and dereferences the null error slot (modelled as none,
undefined behaviour) instead of returning GRPC_ERROR_INVALID_ARGUMENT. -/
theorem execute_word_error_slot_unchecked :
    grpc_client_execute_word false (some "ADD") [] ⟨true, true, true⟩ 0
        ⟨some ⟨"boom", "zig", "UnknownWord"⟩, []⟩ ⟨none, 0, none⟩
      = some (GRPC_ERROR_INVALID_ARGUMENT, ⟨none, 0, none⟩) ∧
    grpc_client_execute_word true (some "ADD") [] ⟨true, true, false⟩ 0
        ⟨some ⟨"boom", "zig", "UnknownWord"⟩, []⟩ ⟨none, 0, none⟩
      = none :=
  ⟨rfl, rfl⟩

/-- C2 counterexample: transport status CANCELLED (code 1) is a defined
status value, yet status_to_error_code maps it to GRPC_ERROR_UNKNOWN,
refuting the claim that every defined status maps to a member other than
Unknown. -/
theorem status_cancelled_maps_to_unknown :
    isDefinedStatus 1 = true ∧ status_to_error_code 1 = GRPC_ERROR_UNKNOWN := by
  constructor
  · rfl
  · rfl

/-- C2 (amended): the mapping is a total function on status codes; OK maps
to GRPC_OK; each of the thirteen codes the switch enumerates maps to a
member other than GRPC_ERROR_UNKNOWN; every other non-OK code — including
the defined codes CANCELLED (1), UNKNOWN (2) and DEADLINE_EXCEEDED (4) —
maps to GRPC_ERROR_UNKNOWN. -/
theorem status_mapping_amended :
    status_to_error_code 0 = GRPC_OK ∧
    (∀ c, c ∈ handled_status_codes → status_to_error_code c ≠ GRPC_ERROR_UNKNOWN) ∧
    (∀ c : Int, c ≠ 0 → c ∉ handled_status_codes →
      status_to_error_code c = GRPC_ERROR_UNKNOWN) := by
  refine ⟨rfl, ?_, ?_⟩
  · intro c hc
    fin_cases hc <;> decide
  · intro c h0 hmem
    simp only [handled_status_codes, List.mem_cons, List.not_mem_nil, or_false] at hmem
    push_neg at hmem
    unfold status_to_error_code
    rw [if_neg h0]
    split <;> simp_all

/-- Witness for C2: INVALID_ARGUMENT (3) maps away from Unknown while the
unhandled defined code UNKNOWN (2) and a novel code 99 map to Unknown. -/
theorem status_mapping_amended_witness :
    status_to_error_code 3 ≠ GRPC_ERROR_UNKNOWN ∧
    status_to_error_code 2 = GRPC_ERROR_UNKNOWN ∧
    status_to_error_code 99 = GRPC_ERROR_UNKNOWN :=
  ⟨status_mapping_amended.2.1 3 (by decide),
   status_mapping_amended.2.2 2 (by decide) (by decide),
   status_mapping_amended.2.2 99 (by decide) (by decide)⟩

/-- C3 counterexample: grpc_client_create with an empty (but non-null)
address string and a present output slot returns GRPC_OK and allocates a
client, refuting the claim that an empty address yields
GRPC_ERROR_INVALID_ARGUMENT with no allocation. -/
theorem create_empty_address_accepted :
    grpc_client_create (some "") true = (GRPC_OK, true) ∧
    grpc_client_create (some "") true ≠ (GRPC_ERROR_INVALID_ARGUMENT, false) := by
  constructor
  · rfl
  · intro hcon
    exact absurd hcon (by decide)

/-- C3 (amended): grpc_client_create fails with GRPC_ERROR_INVALID_ARGUMENT
and allocates nothing exactly when the address pointer is null or the
output handle slot is absent; otherwise — including an empty but non-null
address string — it returns GRPC_OK after opening a channel (lazy connect,
no blocking) and stores the allocated client. -/
theorem client_create_validation (address : Option String) (out_present : Bool) :
    ((address = none ∨ out_present = false) →
      grpc_client_create address out_present = (GRPC_ERROR_INVALID_ARGUMENT, false)) ∧
    (address ≠ none → out_present = true →
      grpc_client_create address out_present = (GRPC_OK, true)) := by
  cases address <;> cases out_present <;>
    simp [grpc_client_create]

/-- Witness for C3: a null address is rejected without allocation and a
normal address is accepted. -/
theorem client_create_validation_witness :
    grpc_client_create none true = (GRPC_ERROR_INVALID_ARGUMENT, false) ∧
    grpc_client_create (some "localhost:50051") true = (GRPC_OK, true) :=
  ⟨(client_create_validation none true).1 (Or.inl rfl),
   (client_create_validation (some "localhost:50051") true).2 (by simp) rfl⟩

end ForthicGrpc
